import Mathlib

/-!
Verification of the session manager of `store/auth.store.ts` and the
auto-refresh scheduler of `store/auth-provider.tsx`.

The store is embedded as a record of the five state fields; each zustand
action becomes a pure state transition.  The two async actions perform a
network request, so they take the network's response as an explicit
outcome parameter; JavaScript exceptions inside them are always caught by
their own try/catch, which the embedding reflects by making them total
functions returning `Bool × AuthState` (the returned boolean and the final
store state).  JavaScript string truthiness (`!!token`, `if (!accessToken)`,
`if (data.accessToken)`) is modelled explicitly: the empty string is falsy.
-/

/-- The `provider` enumeration of the `User` interface. -/
inductive Provider where
  | google
  | kakao
  | naver
deriving DecidableEq

/-- The `User` interface of `auth.store.ts`: optional fields are `Option`s. -/
structure User where
  id : String
  email : Option String := none
  nickname : Option String := none
  profileImage : Option String := none
  provider : Provider
deriving DecidableEq

/-- The `AuthState` interface: the five state fields of the store. -/
structure AuthState where
  accessToken : Option String
  user : Option User
  isAuthenticated : Bool
  isLoading : Bool
  error : Option String
deriving DecidableEq

/-- `initialState` of `auth.store.ts`: all fields empty. -/
def initialState : AuthState :=
  { accessToken := none
    user := none
    isAuthenticated := false
    isLoading := false
    error := none }

/-- JavaScript truthiness of a string: the empty string is falsy. -/
def jsTruthyStr (s : String) : Bool := !(s == "")

/-- JavaScript truthiness of a nullable string (`null` and `""` are falsy). -/
def jsTruthyOpt : Option String → Bool
  | none => false
  | some s => jsTruthyStr s

/-- `setAccessToken(token)`: stores the token, sets `isAuthenticated` to
`!!token` (string truthiness), and clears the error. -/
def setAccessToken (token : String) (s : AuthState) : AuthState :=
  { s with
    accessToken := some token
    isAuthenticated := jsTruthyStr token
    error := none }

/-- `setUser(user)`: stores the user and clears the error. -/
def setUser (u : User) (s : AuthState) : AuthState :=
  { s with user := some u, error := none }

/-- `login(accessToken, user)`: unconditionally sets token, user,
`isAuthenticated = true`, clears loading and error. -/
def login (accessToken : String) (u : User) (s : AuthState) : AuthState :=
  { s with
    accessToken := some accessToken
    user := some u
    isAuthenticated := true
    isLoading := false
    error := none }

/-- `logout()`: fires a best-effort `/api/auth/logout` request whose result
is discarded (it never affects the store), then resets the whole state to
`initialState`. -/
def logout (_ : AuthState) : AuthState := initialState

/-- `clearError()`. -/
def clearError (s : AuthState) : AuthState := { s with error := none }

/-- `setError(error)`: records the message and clears the loading flag. -/
def setError (e : String) (s : AuthState) : AuthState :=
  { s with error := some e, isLoading := false }

/-- `setLoading(isLoading)`. -/
def setLoading (b : Bool) (s : AuthState) : AuthState :=
  { s with isLoading := b }

/-- Outcome of the `POST /api/auth/refresh` request as `refreshAccessToken`
consumes it: either the fetch (or body parsing) rejects with an error whose
message is `msg`, or the server answers with `response.ok` and a body whose
`accessToken` field is `accessToken` (absent or a string). -/
inductive RefreshOutcome where
  | netError (msg : String)
  | response (ok : Bool) (accessToken : Option String)
deriving DecidableEq

/-- The `auth/refreshAccessToken/rejected` update: the catch block of
`refreshAccessToken` clears token and authentication, stops loading and
records the error message. -/
def refreshRejected (msg : String) (s : AuthState) : AuthState :=
  { s with
    accessToken := none
    isAuthenticated := false
    isLoading := false
    error := some msg }

/-- `refreshAccessToken()` of `auth.store.ts`.  The pending update sets
`isLoading` and clears the error; a non-ok response throws `토큰 갱신 실패`,
a body without a truthy `accessToken` throws `Access Token이 응답에 없습니다`,
and every throw is caught by the function's own catch block, which applies
`refreshRejected` and returns `false`.  A truthy `accessToken` in the body
is stored with `isAuthenticated = true` and the function returns `true`. -/
def refreshAccessToken (env : RefreshOutcome) (s : AuthState) :
    Bool × AuthState :=
  let pending := { s with isLoading := true, error := none }
  match env with
  | .netError msg => (false, refreshRejected msg pending)
  | .response ok tok =>
    if !ok then
      (false, refreshRejected "토큰 갱신 실패" pending)
    else if jsTruthyOpt tok then
      (true, { pending with
                accessToken := tok
                isAuthenticated := true
                isLoading := false
                error := none })
    else
      (false, refreshRejected "Access Token이 응답에 없습니다" pending)

/-- Outcome of the `POST /api/auth/validate` request as `validateToken`
consumes it: either the fetch rejects with message `msg`, or the server
answers with HTTP status `status` (`response.ok` means 200 ≤ status < 300). -/
inductive ValidateOutcome where
  | netError (msg : String)
  | response (status : Nat)
deriving DecidableEq

/-- `validateToken()` of `auth.store.ts`.  With a falsy `accessToken` it
delegates to `refreshAccessToken()`.  Otherwise the pending update sets
`isLoading` (the error field is left as is); an ok response clears the
loading flag and returns `true`; a 401 delegates to refresh; any other
status throws `토큰 검증 실패`, and the catch block (also reached on a fetch
rejection) clears loading, records the message, then delegates to refresh. -/
def validateToken (venv : ValidateOutcome) (renv : RefreshOutcome)
    (s : AuthState) : Bool × AuthState :=
  if !(jsTruthyOpt s.accessToken) then
    refreshAccessToken renv s
  else
    let pending := { s with isLoading := true }
    match venv with
    | .netError msg =>
      refreshAccessToken renv
        { pending with isLoading := false, error := some msg }
    | .response status =>
      if 200 ≤ status ∧ status < 300 then
        (true, { pending with isLoading := false })
      else if status == 401 then
        refreshAccessToken renv pending
      else
        refreshAccessToken renv
          { pending with isLoading := false, error := some "토큰 검증 실패" }

/-- A refresh outcome that makes `refreshAccessToken` fail: a network
error, a non-ok response, or a body without a truthy `accessToken`. -/
def refreshFails : RefreshOutcome → Bool
  | .netError _ => true
  | .response ok tok => !ok || !(jsTruthyOpt tok)

/-- A concrete user record used in witnesses. -/
def uEx : User := { id := "u1", provider := Provider.google }

/-- A concrete authenticated state used in counterexamples. -/
def sEx : AuthState :=
  { accessToken := some "abc"
    user := some uEx
    isAuthenticated := true
    isLoading := false
    error := none }

/-- A state holding the empty string as token: non-null but JS-falsy. -/
def sEmptyTok : AuthState :=
  { accessToken := some ""
    user := none
    isAuthenticated := false
    isLoading := false
    error := none }

theorem jsTruthyOpt_true_ne_none (tok : Option String)
    (h : jsTruthyOpt tok = true) : tok ≠ none := by
  cases tok with
  | none => simp [jsTruthyOpt] at h
  | some t => simp

theorem refresh_true_spec (env : RefreshOutcome) (s : AuthState)
    (h : (refreshAccessToken env s).1 = true) :
    (refreshAccessToken env s).2.accessToken ≠ none ∧
    (refreshAccessToken env s).2.isAuthenticated = true ∧
    (refreshAccessToken env s).2.isLoading = false ∧
    (refreshAccessToken env s).2.error = none ∧
    (refreshAccessToken env s).2.user = s.user := by
  cases env with
  | netError msg => simp [refreshAccessToken, refreshRejected] at h
  | response ok tok =>
    cases ok with
    | false => simp [refreshAccessToken, refreshRejected] at h
    | true =>
      cases htok : jsTruthyOpt tok with
      | false => simp [refreshAccessToken, refreshRejected, htok] at h
      | true =>
        simp [refreshAccessToken, htok]
        exact jsTruthyOpt_true_ne_none tok htok

theorem refresh_false_spec (env : RefreshOutcome) (s : AuthState)
    (h : (refreshAccessToken env s).1 = false) :
    (refreshAccessToken env s).2.accessToken = none ∧
    (refreshAccessToken env s).2.isAuthenticated = false ∧
    (refreshAccessToken env s).2.isLoading = false ∧
    (refreshAccessToken env s).2.error ≠ none ∧
    (refreshAccessToken env s).2.user = s.user := by
  cases env with
  | netError msg => simp [refreshAccessToken, refreshRejected]
  | response ok tok =>
    cases ok with
    | false => simp [refreshAccessToken, refreshRejected]
    | true =>
      cases htok : jsTruthyOpt tok with
      | false => simp [refreshAccessToken, refreshRejected, htok]
      | true => simp [refreshAccessToken, htok] at h

theorem refreshFails_returns_false (env : RefreshOutcome) (s : AuthState)
    (h : refreshFails env = true) :
    (refreshAccessToken env s).1 = false := by
  cases env with
  | netError msg => simp [refreshAccessToken]
  | response ok tok =>
    cases ok with
    | false => simp [refreshAccessToken]
    | true =>
      cases htok : jsTruthyOpt tok with
      | false => simp [refreshAccessToken, htok]
      | true => simp [refreshFails, htok] at h

theorem refresh_user_unchanged (env : RefreshOutcome) (s : AuthState) :
    (refreshAccessToken env s).2.user = s.user := by
  cases h : (refreshAccessToken env s).1 with
  | false => exact (refresh_false_spec env s h).2.2.2.2
  | true => exact (refresh_true_spec env s h).2.2.2.2

/-- The failure modes of a `validateToken()` call, as the error-handling
design enumerates them: missing credential (falsy access token), network
failure, or a server answer that is not a success status (server-rejected
token).  Only the pure success path — a truthy token that the server
answers with 2xx — is excluded. -/
def validateFailureMode (venv : ValidateOutcome) (s : AuthState) : Bool :=
  !(jsTruthyOpt s.accessToken) ||
    match venv with
    | .netError _ => true
    | .response status => !(decide (200 ≤ status ∧ status < 300))

theorem validate_true_restored (venv : ValidateOutcome)
    (renv : RefreshOutcome) (s : AuthState)
    (hfail : validateFailureMode venv s = true)
    (h : (validateToken venv renv s).1 = true) :
    (validateToken venv renv s).2.accessToken ≠ none ∧
    (validateToken venv renv s).2.isAuthenticated = true := by
  by_cases htok : jsTruthyOpt s.accessToken = true
  · simp only [validateToken, htok, Bool.not_true, Bool.false_eq_true,
      if_false] at h ⊢
    cases venv with
    | netError msg =>
      exact ⟨(refresh_true_spec _ _ h).1, (refresh_true_spec _ _ h).2.1⟩
    | response status =>
      have hok : ¬(200 ≤ status ∧ status < 300) := by
        simp [validateFailureMode, htok] at hfail
        omega
      simp only [hok, if_false] at h ⊢
      by_cases h401 : status == 401
      · simp only [h401, if_true] at h ⊢
        exact ⟨(refresh_true_spec _ _ h).1, (refresh_true_spec _ _ h).2.1⟩
      · simp only [h401, Bool.false_eq_true, if_false] at h ⊢
        exact ⟨(refresh_true_spec _ _ h).1, (refresh_true_spec _ _ h).2.1⟩
  · have htok' : jsTruthyOpt s.accessToken = false := by
      exact Bool.not_eq_true _ ▸ Bool.of_not_eq_true htok
    simp only [validateToken, htok', Bool.not_false, if_true] at h ⊢
    exact ⟨(refresh_true_spec _ _ h).1, (refresh_true_spec _ _ h).2.1⟩

theorem validate_false_spec (venv : ValidateOutcome) (renv : RefreshOutcome)
    (s : AuthState) (h : (validateToken venv renv s).1 = false) :
    (validateToken venv renv s).2.accessToken = none ∧
    (validateToken venv renv s).2.isAuthenticated = false ∧
    (validateToken venv renv s).2.isLoading = false ∧
    (validateToken venv renv s).2.error ≠ none ∧
    (validateToken venv renv s).2.user = s.user := by
  by_cases htok : jsTruthyOpt s.accessToken = true
  · simp only [validateToken, htok, Bool.not_true, Bool.false_eq_true,
      if_false] at h ⊢
    cases venv with
    | netError msg => exact refresh_false_spec _ _ h
    | response status =>
      by_cases hok : 200 ≤ status ∧ status < 300
      · simp [hok] at h
      · simp only [hok, if_false] at h ⊢
        by_cases h401 : status == 401
        · simp only [h401, if_true] at h ⊢
          exact refresh_false_spec _ _ h
        · simp only [h401, Bool.false_eq_true, if_false] at h ⊢
          exact refresh_false_spec _ _ h
  · have htok' : jsTruthyOpt s.accessToken = false := by
      exact Bool.not_eq_true _ ▸ Bool.of_not_eq_true htok
    simp only [validateToken, htok', Bool.not_false, if_true] at h ⊢
    exact refresh_false_spec _ _ h

/-- Claim C1: whenever the refresh outcome is a failure (network error,
non-ok response, or a body without a truthy access token),
`refreshAccessToken` returns `false` and leaves `accessToken = null`,
`isAuthenticated = false`, `isLoading = false` and a non-null error message,
for every prior state.  The embedding is a total function, reflecting that
the source catches every exception inside its own try/catch and never
propagates one to the caller. -/
theorem refresh_failure_postcondition (s : AuthState) (env : RefreshOutcome)
    (h : refreshFails env = true) :
    (refreshAccessToken env s).1 = false ∧
    (refreshAccessToken env s).2.accessToken = none ∧
    (refreshAccessToken env s).2.isAuthenticated = false ∧
    (refreshAccessToken env s).2.isLoading = false ∧
    (refreshAccessToken env s).2.error ≠ none := by
  have h1 := refreshFails_returns_false env s h
  have h2 := refresh_false_spec env s h1
  exact ⟨h1, h2.1, h2.2.1, h2.2.2.1, h2.2.2.2.1⟩

/-- Witness for C1 at a concrete failing outcome and prior state. -/
theorem refresh_failure_postcondition_witness :
    (refreshAccessToken (.netError "ECONNREFUSED") sEx).1 = false ∧
    (refreshAccessToken (.netError "ECONNREFUSED") sEx).2.accessToken = none ∧
    (refreshAccessToken (.netError "ECONNREFUSED") sEx).2.isAuthenticated = false ∧
    (refreshAccessToken (.netError "ECONNREFUSED") sEx).2.isLoading = false ∧
    (refreshAccessToken (.netError "ECONNREFUSED") sEx).2.error ≠ none :=
  refresh_failure_postcondition sEx (.netError "ECONNREFUSED") rfl

/-- Claim C2 counterexample: a failing refresh does not reset the session to
the empty initial state.  From `sEx` (token "abc", user `uEx`) a network
error makes `refreshAccessToken` return `false` — so the session is not
restored with a fresh token — yet the final state still holds
`user = some uEx`, unlike the empty session whose user is `none`. -/
theorem refresh_failure_keeps_user_counterexample :
    (refreshAccessToken (.netError "network down") sEx).1 = false ∧
    (refreshAccessToken (.netError "network down") sEx).2.user = some uEx ∧
    (refreshAccessToken (.netError "network down") sEx).2.user ≠ initialState.user := by
  decide

/-- Claim C2 (amended): for every prior state and every failure mode of a
`refreshAccessToken()`/`validateToken()` call (missing credential, network
failure, server-rejected token), the final observable state is one of
exactly two outcomes: the session restored holding a fresh access token
with `isAuthenticated = true`, or the session with `accessToken` cleared,
`isAuthenticated = false`, `isLoading = false` and a human-readable error
message — the `user` field being left unchanged rather than reset to the
empty session. -/
theorem session_failure_dichotomy (s : AuthState) (venv : ValidateOutcome)
    (renv : RefreshOutcome) (hfail : validateFailureMode venv s = true) :
    ((refreshAccessToken renv s).1 = true →
      (refreshAccessToken renv s).2.accessToken ≠ none ∧
      (refreshAccessToken renv s).2.isAuthenticated = true) ∧
    ((refreshAccessToken renv s).1 = false →
      (refreshAccessToken renv s).2.accessToken = none ∧
      (refreshAccessToken renv s).2.isAuthenticated = false ∧
      (refreshAccessToken renv s).2.isLoading = false ∧
      (refreshAccessToken renv s).2.error ≠ none ∧
      (refreshAccessToken renv s).2.user = s.user) ∧
    ((validateToken venv renv s).1 = true →
      (validateToken venv renv s).2.accessToken ≠ none ∧
      (validateToken venv renv s).2.isAuthenticated = true) ∧
    ((validateToken venv renv s).1 = false →
      (validateToken venv renv s).2.accessToken = none ∧
      (validateToken venv renv s).2.isAuthenticated = false ∧
      (validateToken venv renv s).2.isLoading = false ∧
      (validateToken venv renv s).2.error ≠ none ∧
      (validateToken venv renv s).2.user = s.user) :=
  ⟨fun h => ⟨(refresh_true_spec renv s h).1, (refresh_true_spec renv s h).2.1⟩,
   fun h => refresh_false_spec renv s h,
   fun h => validate_true_restored venv renv s hfail h,
   fun h => validate_false_spec venv renv s h⟩

/-- Witness for the amended C2 at a concrete state and failing outcomes:
a server-rejected token (500) followed by a failing refresh ends in the
reset-with-error outcome with the user preserved; a succeeding refresh from
the same failure mode ends in the restored outcome. -/
theorem session_failure_dichotomy_witness :
    ((validateToken (.response 500) (.response false none) sEx).2.accessToken
        = none ∧
      (validateToken (.response 500)
        (.response false none) sEx).2.isAuthenticated = false ∧
      (validateToken (.response 500)
        (.response false none) sEx).2.isLoading = false ∧
      (validateToken (.response 500)
        (.response false none) sEx).2.error ≠ none ∧
      (validateToken (.response 500)
        (.response false none) sEx).2.user = sEx.user) ∧
    ((validateToken (.response 500)
        (.response true (some "xyz")) sEx).2.accessToken ≠ none ∧
      (validateToken (.response 500)
        (.response true (some "xyz")) sEx).2.isAuthenticated = true) :=
  ⟨(session_failure_dichotomy sEx (.response 500) (.response false none)
      (by decide)).2.2.2 (by decide),
   (session_failure_dichotomy sEx (.response 500) (.response true (some "xyz"))
      (by decide)).2.2.1 (by decide)⟩

/-- Claim C3: when `accessToken` is absent (null), `validateToken()`
delegates directly to `refreshAccessToken()`: the returned boolean and the
resulting state are exactly those of `refreshAccessToken()`. -/
theorem validate_no_token_delegates (s : AuthState) (venv : ValidateOutcome)
    (renv : RefreshOutcome) (h : s.accessToken = none) :
    validateToken venv renv s = refreshAccessToken renv s := by
  simp [validateToken, h, jsTruthyOpt]

/-- Witness for C3 on the empty initial session. -/
theorem validate_no_token_delegates_witness :
    validateToken (.response 200) (.netError "offline") initialState =
      refreshAccessToken (.netError "offline") initialState :=
  validate_no_token_delegates initialState (.response 200)
    (.netError "offline") rfl

/-- Claim C4: for every starting state, token and user, `login` followed by
`logout` yields the initial empty state. -/
theorem login_then_logout_empty (s : AuthState) (t : String) (u : User) :
    logout (login t u s) = initialState := rfl

/-- Claim C5: `logout()` is idempotent: applying it twice gives the same
empty state as applying it once. -/
theorem logout_idempotent (s : AuthState) :
    logout (logout s) = logout s := rfl

/-- The session invariant: `isAuthenticated` is true only while an access
token is held. -/
def authInvariant (s : AuthState) : Prop :=
  s.isAuthenticated = true → s.accessToken ≠ none

instance (s : AuthState) : Decidable (authInvariant s) := by
  unfold authInvariant
  infer_instance

theorem refresh_inv (env : RefreshOutcome) (s : AuthState) :
    authInvariant (refreshAccessToken env s).2 := by
  intro ha
  cases h : (refreshAccessToken env s).1 with
  | false =>
    have hf := (refresh_false_spec env s h).2.1
    rw [hf] at ha
    exact absurd ha (by simp)
  | true => exact (refresh_true_spec env s h).1

theorem validate_inv (venv : ValidateOutcome) (renv : RefreshOutcome)
    (s : AuthState) :
    authInvariant (validateToken venv renv s).2 := by
  by_cases htok : jsTruthyOpt s.accessToken = true
  · simp only [validateToken, htok, Bool.not_true, Bool.false_eq_true,
      if_false]
    cases venv with
    | netError msg => exact refresh_inv _ _
    | response status =>
      by_cases hok : 200 ≤ status ∧ status < 300
      · simp only [hok, if_true]
        intro _
        exact jsTruthyOpt_true_ne_none s.accessToken htok
      · simp only [hok, if_false]
        by_cases h401 : status == 401
        · simp only [h401, if_true]
          exact refresh_inv _ _
        · simp only [h401, Bool.false_eq_true, if_false]
          exact refresh_inv _ _
  · have htok' : jsTruthyOpt s.accessToken = false := by
      exact Bool.not_eq_true _ ▸ Bool.of_not_eq_true htok
    simp only [validateToken, htok', Bool.not_false, if_true]
    exact refresh_inv _ _

/-- Claim C6: the invariant `isAuthenticated = true → accessToken ≠ null`
holds in the initial empty state and is preserved by every operation of the
store; operations that clear the token (logout, refresh failure) also clear
authentication. -/
theorem auth_invariant_preserved (s : AuthState) (t : String) (u : User)
    (b : Bool) (e : String) (renv : RefreshOutcome) (venv : ValidateOutcome)
    (hs : authInvariant s) :
    authInvariant initialState ∧
    authInvariant (setAccessToken t s) ∧
    authInvariant (setUser u s) ∧
    authInvariant (login t u s) ∧
    authInvariant (logout s) ∧
    authInvariant (clearError s) ∧
    authInvariant (setError e s) ∧
    authInvariant (setLoading b s) ∧
    authInvariant (refreshAccessToken renv s).2 ∧
    authInvariant (validateToken venv renv s).2 := by
  refine ⟨?_, ?_, ?_, ?_, ?_, ?_, ?_, ?_, refresh_inv renv s,
    validate_inv venv renv s⟩
  · intro h
    simp [initialState] at h
  · intro _
    simp [setAccessToken]
  · intro h
    exact hs h
  · intro _
    simp [login]
  · intro h
    simp [logout, initialState] at h
  · intro h
    exact hs h
  · intro h
    exact hs h
  · intro h
    exact hs h

/-- Witness for C6 at a concrete authenticated state. -/
theorem auth_invariant_preserved_witness :
    authInvariant initialState ∧
    authInvariant (setAccessToken "t1" sEx) ∧
    authInvariant (setUser uEx sEx) ∧
    authInvariant (login "t1" uEx sEx) ∧
    authInvariant (logout sEx) ∧
    authInvariant (clearError sEx) ∧
    authInvariant (setError "boom" sEx) ∧
    authInvariant (setLoading true sEx) ∧
    authInvariant (refreshAccessToken (.netError "x") sEx).2 ∧
    authInvariant (validateToken (.response 500) (.netError "x") sEx).2 :=
  auth_invariant_preserved sEx "t1" uEx true "boom" (.netError "x")
    (.response 500) (by decide)

/-- Claim C7 counterexample: the state `sEmptyTok` holds the non-null access
token `some ""`, and the validate endpoint would answer 200; yet
`validateToken` treats the empty string as absent (JS truthiness of
`!accessToken`), never performs the validation request, and delegates to
refresh — which here fails, so the call returns `false` rather than `true`
with only the loading flag cleared. -/
theorem validate_success_frame_counterexample :
    sEmptyTok.accessToken ≠ none ∧
    (validateToken (.response 200) (.netError "network down") sEmptyTok).1
      = false := by
  decide

/-- Claim C7 (amended): for every state whose access token is JS-truthy
(non-null and non-empty), when the validate endpoint answers a success
status, `validateToken` returns `true` and leaves every field unchanged
except `isLoading`, which is cleared to `false`. -/
theorem validate_success_frame (s : AuthState) (renv : RefreshOutcome)
    (status : Nat) (htok : jsTruthyOpt s.accessToken = true)
    (hok : 200 ≤ status ∧ status < 300) :
    validateToken (.response status) renv s =
      (true, { s with isLoading := false }) := by
  simp [validateToken, htok, hok]

/-- Witness for the amended C7 at a concrete state and success status. -/
theorem validate_success_frame_witness :
    validateToken (.response 204) (.netError "x") sEx =
      (true, { sEx with isLoading := false }) :=
  validate_success_frame sEx (.netError "x") 204 (by decide) (by decide)

/-- Claim C8: from any session holding `accessToken = "abc"`, a 401 from
the validate endpoint makes `validateToken` delegate to refresh; when the
refresh endpoint answers ok with body token `"xyz"`, the final state holds
`accessToken = "xyz"` with `isAuthenticated = true` and the call returns
`true`. -/
theorem validate_401_then_refresh (s : AuthState)
    (h : s.accessToken = some "abc") :
    (validateToken (.response 401) (.response true (some "xyz")) s).1
      = true ∧
    (validateToken (.response 401)
      (.response true (some "xyz")) s).2.accessToken = some "xyz" ∧
    (validateToken (.response 401)
      (.response true (some "xyz")) s).2.isAuthenticated = true := by
  simp [validateToken, h, jsTruthyOpt, jsTruthyStr, refreshAccessToken]

/-- Witness for C8 at the concrete state `sEx`. -/
theorem validate_401_then_refresh_witness :
    (validateToken (.response 401) (.response true (some "xyz")) sEx).1
      = true ∧
    (validateToken (.response 401)
      (.response true (some "xyz")) sEx).2.accessToken = some "xyz" ∧
    (validateToken (.response 401)
      (.response true (some "xyz")) sEx).2.isAuthenticated = true :=
  validate_401_then_refresh sEx rfl

/-- Claim C10: `setAccessToken` derives `isAuthenticated` from the token's
JS truthiness — a non-empty token authenticates, the empty string is stored
as `some ""` with `isAuthenticated = false` — whereas `login` sets
`isAuthenticated = true` unconditionally, even for the empty token. -/
theorem setAccessToken_truthiness_vs_login (s : AuthState) (token : String)
    (u : User) :
    (setAccessToken token s).accessToken = some token ∧
    (setAccessToken token s).isAuthenticated =
      (if token = "" then false else true) ∧
    (setAccessToken "" s).accessToken = some "" ∧
    (setAccessToken "" s).isAuthenticated = false ∧
    (login token u s).isAuthenticated = true ∧
    (login "" u s).isAuthenticated = true := by
  refine ⟨rfl, ?_, rfl, by simp [setAccessToken, jsTruthyStr], rfl, rfl⟩
  by_cases h : token = ""
  · simp [setAccessToken, jsTruthyStr, h]
  · simp [setAccessToken, jsTruthyStr, h]

/-- Events driving the auto-refresh interval effect of
`auth-provider.tsx`: the `isAuthenticated` dependency changes to `b`
(framework semantics: run the cleanup, then re-run the effect body), the
provider unmounts (run only the cleanup), or the interval fires a tick. -/
inductive SchedEvent where
  | setAuth (b : Bool)
  | unmount
  | tick
deriving DecidableEq

/-- Scheduler state: whether the provider is mounted and whether the
recurring `setInterval` timer is currently installed. -/
structure SchedState where
  mounted : Bool
  timerActive : Bool
deriving DecidableEq

/-- Body of the interval effect: `if (!isAuthenticated) return;` installs no
timer; otherwise `setInterval(() => validateToken(), 50 * 60 * 1000)`
installs the recurring timer. -/
def schedulerEffectBody (isAuthenticated : Bool) : Bool := isAuthenticated

/-- Mounting the provider runs the effect body with the current flag. -/
def schedMount (isAuthenticated : Bool) : SchedState :=
  { mounted := true, timerActive := schedulerEffectBody isAuthenticated }

/-- One scheduler step.  A dependency change on a mounted provider runs the
cleanup (`clearInterval`) and then the effect body; unmount runs only the
cleanup; a tick emits a scheduler-initiated `validateToken()` call (the
returned Bool) iff the timer is installed. -/
def schedStep (st : SchedState) : SchedEvent → SchedState × Bool
  | .setAuth b =>
    ({ mounted := st.mounted
       timerActive := st.mounted && schedulerEffectBody b }, false)
  | .unmount => ({ mounted := false, timerActive := false }, false)
  | .tick => (st, st.timerActive)

/-- Run a list of events, counting scheduler-initiated validate calls. -/
def schedRun (st : SchedState) : List SchedEvent → SchedState × Nat
  | [] => (st, 0)
  | e :: es =>
    let r := schedStep st e
    let rest := schedRun r.1 es
    (rest.1, (if r.2 then 1 else 0) + rest.2)

theorem schedRun_quiet (es : List SchedEvent)
    (hq : ∀ e ∈ es, e = SchedEvent.tick ∨ e = SchedEvent.setAuth false ∨
      e = SchedEvent.unmount) :
    ∀ st : SchedState, st.timerActive = false →
      (schedRun st es).2 = 0 ∧ (schedRun st es).1.timerActive = false := by
  induction es with
  | nil =>
    intro st hst
    exact ⟨rfl, hst⟩
  | cons e es ih =>
    intro st hst
    have hq' : ∀ x ∈ es, x = SchedEvent.tick ∨ x = SchedEvent.setAuth false ∨
        x = SchedEvent.unmount :=
      fun x hx => hq x (List.mem_cons_of_mem e hx)
    rcases hq e (List.mem_cons_self e es) with he | he | he <;> subst he
    · simpa [schedRun, schedStep, hst] using ih hq' st hst
    · simpa [schedRun, schedStep, schedulerEffectBody] using
        ih hq' ⟨st.mounted, false⟩ rfl
    · simpa [schedRun, schedStep] using ih hq' ⟨false, false⟩ rfl

/-- Claim C9: when the authentication flag drops to false or the provider
unmounts, the recurring timer is torn down (`timerActive = false`); from the
torn-down state, as long as no event re-authenticates the session, no
scheduler-initiated validate call is ever emitted; and mounting while
unauthenticated installs no timer at all. -/
theorem scheduler_teardown (st : SchedState) (es : List SchedEvent)
    (hq : ∀ e ∈ es, e = SchedEvent.tick ∨ e = SchedEvent.setAuth false ∨
      e = SchedEvent.unmount) :
    (schedStep st (SchedEvent.setAuth false)).1.timerActive = false ∧
    (schedStep st SchedEvent.unmount).1.timerActive = false ∧
    (schedMount false).timerActive = false ∧
    (schedRun (schedStep st (SchedEvent.setAuth false)).1 es).2 = 0 ∧
    (schedRun (schedStep st SchedEvent.unmount).1 es).2 = 0 := by
  refine ⟨by simp [schedStep, schedulerEffectBody], rfl, rfl, ?_, ?_⟩
  · exact (schedRun_quiet es hq _ (by simp [schedStep, schedulerEffectBody])).1
  · exact (schedRun_quiet es hq _ rfl).1

/-- Witness for C9: an active authenticated scheduler, after losing
authentication or unmounting, emits no call on a concrete later trace. -/
theorem scheduler_teardown_witness :
    (schedStep ⟨true, true⟩ (SchedEvent.setAuth false)).1.timerActive
      = false ∧
    (schedStep ⟨true, true⟩ SchedEvent.unmount).1.timerActive = false ∧
    (schedMount false).timerActive = false ∧
    (schedRun (schedStep ⟨true, true⟩ (SchedEvent.setAuth false)).1
      [SchedEvent.tick, SchedEvent.unmount, SchedEvent.tick]).2 = 0 ∧
    (schedRun (schedStep ⟨true, true⟩ SchedEvent.unmount).1
      [SchedEvent.tick, SchedEvent.unmount, SchedEvent.tick]).2 = 0 :=
  scheduler_teardown ⟨true, true⟩
    [SchedEvent.tick, SchedEvent.unmount, SchedEvent.tick] (by decide)
